import Mathlib

/-!
Shallow embedding of `src/common/metrics/src/lib.rs` (logdna-agent-v2 metrics
module).

Machine integers: the Rust code stores counters in `AtomicU64` and in
prometheus `IntCounter`/`IntCounterVec` (whose underlying value is an atomic
u64).  `fetch_add`/`inc`/`inc_by` wrap modulo 2^64, modelled by `u64add`.
Timestamps are `i64` (`chrono::Utc::now().timestamp()`), modelled as `Int`;
the `as u64` cast in `Metrics::elapsed` is modelled by `i64_as_u64`, i.e.
reduction modulo 2^64.

Panics (`.unwrap()` on an `Err`) are modelled as `Except.error ()`: a
function that can reach an unwrap-of-Err has result type `Except Unit _`.
-/

def U64MOD : Nat := 2 ^ 64

/-- Wrapping 64-bit addition: models `AtomicU64::fetch_add` /
prometheus `IntCounter::inc_by` (both wrap modulo 2^64). -/
def u64add (a b : Nat) : Nat := (a + b) % U64MOD

/-- Models the Rust cast `x as u64` applied to an `i64`-valued expression:
the result is `x` reduced modulo 2^64 (interpreted as a non-negative Nat). -/
def i64_as_u64 (x : Int) : Nat := (x % (2 ^ 64 : Int)).toNat

/-! ### prometheus `IntCounterVec`

`register_int_counter_vec!("fs_events", "...", labels::FS_ALL)` registers a
counter vector whose *variable label names* are the entries of `FS_ALL`
(three of them).  `with_label_values(vals)` looks up (or lazily creates,
starting at 0) the child counter keyed by the tuple `vals` of *label
values*; per the prometheus crate it first checks the cardinality and
returns `Err(Error::InconsistentCardinality)` when `vals.len()` differs
from the number of registered label names — `with_label_values` unwraps
that `Result`, so a cardinality mismatch is a panic, modelled as
`Except.error ()`. -/

structure IntCounterVec where
  label_names : List String
  children : List (List String × Nat)
deriving DecidableEq, Repr

/-- Value of the child counter keyed by `vals` (a never-touched child
reads 0, as a freshly created prometheus child does). -/
def lookupChild (cs : List (List String × Nat)) (vals : List String) : Nat :=
  match cs with
  | [] => 0
  | (k, v) :: rest => if k = vals then v else lookupChild rest vals

/-- Add `n` (wrapping) to the child keyed by `vals`, creating it at 0 first
if absent. -/
def updChild (cs : List (List String × Nat)) (vals : List String) (n : Nat) :
    List (List String × Nat) :=
  match cs with
  | [] => [(vals, u64add 0 n)]
  | (k, v) :: rest =>
      if k = vals then (k, u64add v n) :: rest else (k, v) :: updChild rest vals n

/-- `vec.with_label_values(vals).get()`: errors (panics) unless the number
of supplied label values equals the number of registered label names. -/
def IntCounterVec.with_label_values_get (v : IntCounterVec) (vals : List String) :
    Except Unit Nat :=
  if vals.length = v.label_names.length then .ok (lookupChild v.children vals)
  else .error ()

/-- `vec.with_label_values(vals).inc_by(n)` (and `inc` for `n = 1`): errors
(panics) on label-cardinality mismatch, otherwise bumps the keyed child. -/
def IntCounterVec.with_label_values_inc_by (v : IntCounterVec) (vals : List String)
    (n : Nat) : Except Unit IntCounterVec :=
  if vals.length = v.label_names.length then
    .ok { v with children := updChild v.children vals n }
  else .error ()

/-! ### `mod labels` -/

def labels.CREATE : String := "create"
def labels.DELETE : String := "delete"
def labels.WRITE : String := "write"
def labels.FS_ALL : List String := [labels.CREATE, labels.WRITE, labels.DELETE]

/-! ### The filesystem counters

The `lazy_static` globals `FS_EVENTS : IntCounterVec` (registered with label
names `labels::FS_ALL`), `FS_LINES`, `FS_BYTES`, `FS_PARTIAL_READS`
(plain `IntCounter`s).  The `Fs` struct in the source is a unit struct whose
methods act on these globals; we bundle the globals into `FsCounters`. -/

structure FsCounters where
  FS_EVENTS : IntCounterVec
  FS_LINES : Nat
  FS_BYTES : Nat
  FS_PARTIAL_READS : Nat
deriving DecidableEq, Repr

/-- The freshly registered globals: an empty `fs_events` vector with the
three label names of `FS_ALL`, and zeroed plain counters. -/
def FsCounters.new : FsCounters :=
  { FS_EVENTS := { label_names := labels.FS_ALL, children := [] }
    FS_LINES := 0
    FS_BYTES := 0
    FS_PARTIAL_READS := 0 }

/-- `Fs::reset` — the body is empty (`// TODO: Remove` in the source). -/
def Fs.reset (s : FsCounters) : FsCounters := s

/-- `Fs::increment_creates`: `FS_EVENTS.with_label_values(&[labels::CREATE]).inc()`. -/
def Fs.increment_creates (s : FsCounters) : Except Unit FsCounters :=
  match s.FS_EVENTS.with_label_values_inc_by [labels.CREATE] 1 with
  | .error e => .error e
  | .ok v => .ok { s with FS_EVENTS := v }

/-- `Fs::increment_deletes`: `FS_EVENTS.with_label_values(&[labels::DELETE]).inc()`. -/
def Fs.increment_deletes (s : FsCounters) : Except Unit FsCounters :=
  match s.FS_EVENTS.with_label_values_inc_by [labels.DELETE] 1 with
  | .error e => .error e
  | .ok v => .ok { s with FS_EVENTS := v }

/-- `Fs::increment_writes`: `FS_EVENTS.with_label_values(&[labels::WRITE]).inc()`. -/
def Fs.increment_writes (s : FsCounters) : Except Unit FsCounters :=
  match s.FS_EVENTS.with_label_values_inc_by [labels.WRITE] 1 with
  | .error e => .error e
  | .ok v => .ok { s with FS_EVENTS := v }

/-- `Fs::increment_lines`: `FS_LINES.inc()` — cannot fail. -/
def Fs.increment_lines (s : FsCounters) : FsCounters :=
  { s with FS_LINES := u64add s.FS_LINES 1 }

/-- `Fs::add_bytes(num)`: `FS_BYTES.inc_by(num)` — cannot fail. -/
def Fs.add_bytes (s : FsCounters) (num : Nat) : FsCounters :=
  { s with FS_BYTES := u64add s.FS_BYTES num }

/-- `Fs::increment_partial_reads`: `FS_PARTIAL_READS.inc()` — cannot fail. -/
def Fs.increment_partial_reads (s : FsCounters) : FsCounters :=
  { s with FS_PARTIAL_READS := u64add s.FS_PARTIAL_READS 1 }

/-! ### `Memory`

Wraps the jemalloc control MIBs.  The statistics facility is modelled by
the fields below: `epoch` is the sampling generation, `epoch_ok` says
whether `epoch_mib.advance()` returns `Ok` (its `Err` is unwrapped — a
panic), and `active`/`allocated`/`resident` are the statistic values
(`usize`, read as `Ok` exactly when the corresponding `_ok` flag holds;
the `Err` case is likewise unwrapped).  The `as u64` cast on the read
value is `% U64MOD`. -/

structure Memory where
  epoch : Nat
  epoch_ok : Bool
  active : Nat
  active_ok : Bool
  allocated : Nat
  allocated_ok : Bool
  resident : Nat
  resident_ok : Bool
deriving DecidableEq, Repr

/-- `Memory::reset` — empty body. -/
def Memory.reset (m : Memory) : Memory := m

/-- `self.epoch_mib.advance().unwrap()`: advances the sampling generation,
panicking when the facility fails. -/
def Memory.advance_epoch (m : Memory) : Except Unit Memory :=
  if m.epoch_ok then .ok { m with epoch := u64add m.epoch 1 } else .error ()

/-- `Memory::read_active`: advance the epoch, then `active_mib.read().unwrap() as u64`. -/
def Memory.read_active (m : Memory) : Except Unit (Nat × Memory) :=
  match m.advance_epoch with
  | .error e => .error e
  | .ok m' => if m'.active_ok then .ok (m'.active % U64MOD, m') else .error ()

/-- `Memory::read_allocated`: advance the epoch, then `allocated_mib.read().unwrap() as u64`. -/
def Memory.read_allocated (m : Memory) : Except Unit (Nat × Memory) :=
  match m.advance_epoch with
  | .error e => .error e
  | .ok m' => if m'.allocated_ok then .ok (m'.allocated % U64MOD, m') else .error ()

/-- `Memory::read_resident`: advance the epoch, then `resident_mib.read().unwrap() as u64`. -/
def Memory.read_resident (m : Memory) : Except Unit (Nat × Memory) :=
  match m.advance_epoch with
  | .error e => .error e
  | .ok m' => if m'.resident_ok then .ok (m'.resident % U64MOD, m') else .error ()

/-! ### `Http` -/

structure Http where
  requests : Nat
  limit_hits : Nat
  request_size : Nat
  retries : Nat
deriving DecidableEq, Repr

/-- `Http::new`: all four `AtomicU64`s start at 0. -/
def Http.new : Http :=
  { requests := 0, limit_hits := 0, request_size := 0, retries := 0 }

/-- `Http::reset`: stores 0 into each of the four atomics. -/
def Http.reset (_h : Http) : Http :=
  { requests := 0, limit_hits := 0, request_size := 0, retries := 0 }

def Http.increment_requests (h : Http) : Http :=
  { h with requests := u64add h.requests 1 }

def Http.read_requests (h : Http) : Nat := h.requests

def Http.increment_limit_hits (h : Http) : Http :=
  { h with limit_hits := u64add h.limit_hits 1 }

def Http.read_limit_hits (h : Http) : Nat := h.limit_hits

/-- `Http::add_request_size(num)`: `self.request_size.fetch_add(num, Relaxed)`. -/
def Http.add_request_size (h : Http) (num : Nat) : Http :=
  { h with request_size := u64add h.request_size num }

def Http.read_request_size (h : Http) : Nat := h.request_size

def Http.increment_retries (h : Http) : Http :=
  { h with retries := u64add h.retries 1 }

def Http.read_retries (h : Http) : Nat := h.retries

/-! ### `K8s` -/

structure K8s where
  lines : Nat
  polls : Nat
  creates : Nat
  deletes : Nat
  events : Nat
  notifies : Nat
deriving DecidableEq, Repr

def K8s.new : K8s :=
  { lines := 0, polls := 0, creates := 0, deletes := 0, events := 0, notifies := 0 }

/-- `K8s::reset`: stores 0 into each of the six atomics. -/
def K8s.reset (_k : K8s) : K8s :=
  { lines := 0, polls := 0, creates := 0, deletes := 0, events := 0, notifies := 0 }

def K8s.increment_lines (k : K8s) : K8s := { k with lines := u64add k.lines 1 }
def K8s.read_lines (k : K8s) : Nat := k.lines
def K8s.increment_polls (k : K8s) : K8s := { k with polls := u64add k.polls 1 }
def K8s.read_polls (k : K8s) : Nat := k.polls
def K8s.increment_creates (k : K8s) : K8s := { k with creates := u64add k.creates 1 }
def K8s.read_creates (k : K8s) : Nat := k.creates
def K8s.increment_deletes (k : K8s) : K8s := { k with deletes := u64add k.deletes 1 }
def K8s.read_deletes (k : K8s) : Nat := k.deletes
def K8s.increment_events (k : K8s) : K8s := { k with events := u64add k.events 1 }
def K8s.read_events (k : K8s) : Nat := k.events
def K8s.increment_notifies (k : K8s) : K8s := { k with notifies := u64add k.notifies 1 }
def K8s.read_notifies (k : K8s) : Nat := k.notifies

/-! ### `Journald` -/

structure Journald where
  lines : Nat
  bytes : Nat
deriving DecidableEq, Repr

def Journald.new : Journald := { lines := 0, bytes := 0 }

/-- `Journald::reset`: stores 0 into both atomics. -/
def Journald.reset (_j : Journald) : Journald := { lines := 0, bytes := 0 }

def Journald.increment_lines (j : Journald) : Journald :=
  { j with lines := u64add j.lines 1 }

def Journald.read_lines (j : Journald) : Nat := j.lines

/-- `Journald::add_bytes(num)`: `self.bytes.fetch_add(num, Relaxed)`. -/
def Journald.add_bytes (j : Journald) (num : Nat) : Journald :=
  { j with bytes := u64add j.bytes num }

def Journald.read_bytes (j : Journald) : Nat := j.bytes

/-! ### `Metrics` (the registry singleton)

`last_flush : AtomicI64` initialised to `Utc::now().timestamp()`; the
filesystem globals are part of the same process state and are bundled in. -/

structure Metrics where
  last_flush : Int
  fs : FsCounters
  memory : Memory
  http : Http
  k8s : K8s
  journald : Journald
deriving DecidableEq, Repr

/-- `Metrics::new` at creation timestamp `t0` with malloc-stats facility `mem`. -/
def Metrics.new (t0 : Int) (mem : Memory) : Metrics :=
  { last_flush := t0
    fs := FsCounters.new
    memory := mem
    http := Http.new
    k8s := K8s.new
    journald := Journald.new }

/-- `Metrics::reset` at current timestamp `now`: stores `now` into
`last_flush` and calls each group's `reset`. -/
def Metrics.reset (now : Int) (m : Metrics) : Metrics :=
  { m with
    last_flush := now
    fs := Fs.reset m.fs
    memory := m.memory.reset
    http := m.http.reset
    k8s := m.k8s.reset
    journald := m.journald.reset }

/-- `Metrics::elapsed`: `(Utc::now().timestamp() - last_flush) as u64`,
with `now` the current timestamp. -/
def Metrics.elapsed (now : Int) (m : Metrics) : Nat :=
  i64_as_u64 (now - m.last_flush)

/-- The structured record `Metrics::print` renders: a JSON object modelled
as an ordered list of (group name, ordered list of (field name, value)). -/
abbrev MetricsRecord := List (String × List (String × Nat))

/-- `Metrics::print`: builds the `object!` literal, evaluating the field
expressions in source order (`fs.events`, `fs.creates`, `fs.deletes`,
`fs.writes`, then the memory reads, ...), and renders it.  Any panicking
field expression aborts `print`, modelled as `Except.error`.  The three
memory reads each advance the sampling epoch, so the final `Memory` state
is returned alongside the record. -/
def Metrics.print (m : Metrics) : Except Unit (MetricsRecord × Metrics) :=
  match m.fs.FS_EVENTS.with_label_values_get labels.FS_ALL with
  | .error e => .error e
  | .ok events =>
  match m.fs.FS_EVENTS.with_label_values_get [labels.CREATE] with
  | .error e => .error e
  | .ok creates =>
  match m.fs.FS_EVENTS.with_label_values_get [labels.DELETE] with
  | .error e => .error e
  | .ok deletes =>
  match m.fs.FS_EVENTS.with_label_values_get [labels.WRITE] with
  | .error e => .error e
  | .ok writes =>
  match m.memory.read_active with
  | .error e => .error e
  | .ok (active, mem1) =>
  match mem1.read_allocated with
  | .error e => .error e
  | .ok (allocated, mem2) =>
  match mem2.read_resident with
  | .error e => .error e
  | .ok (resident, mem3) =>
    .ok ([("fs",
            [("events", events), ("creates", creates), ("deletes", deletes),
             ("writes", writes), ("lines", m.fs.FS_LINES),
             ("bytes", m.fs.FS_BYTES), ("partial_reads", m.fs.FS_PARTIAL_READS)]),
          ("memory",
            [("active", active), ("allocated", allocated), ("resident", resident)]),
          ("ingest",
            [("requests", m.http.read_requests), ("throughput", m.http.read_request_size),
             ("rate_limits", m.http.read_limit_hits), ("retries", m.http.read_retries)]),
          ("k8s",
            [("lines", m.k8s.read_lines), ("polls", m.k8s.read_polls),
             ("creates", m.k8s.read_creates), ("deletes", m.k8s.read_deletes),
             ("events", m.k8s.read_events), ("notifies", m.k8s.read_notifies)]),
          ("journald",
            [("lines", m.journald.read_lines), ("bytes", m.journald.read_bytes)])],
         { m with memory := mem3 })

/-- One tick of the `Metrics::start` flush loop at timestamp `now`:
`info!("{}", Metrics::print())` followed by `Metrics::reset()`.  A panic
inside `print` unwinds before `reset` runs. -/
def Metrics.snapshot_and_reset (now : Int) (m : Metrics) :
    Except Unit (MetricsRecord × Metrics) :=
  match m.print with
  | .error e => .error e
  | .ok (rec, m') => .ok (rec, Metrics.reset now m')

/-- A concrete healthy malloc-stats facility used for concrete evaluations. -/
def exampleMem : Memory :=
  { epoch := 0, epoch_ok := true, active := 4096, active_ok := true
    allocated := 8192, allocated_ok := true, resident := 16384, resident_ok := true }

/-! ## Helper lemmas -/

/-- Folding `Journald.add_bytes` over a list of sizes never touches `lines`
and accumulates the wrapped sum into `bytes`. -/
theorem foldl_add_bytes_spec (ns : List Nat) (j : Journald) (hj : j.bytes < U64MOD) :
    (ns.foldl Journald.add_bytes j).lines = j.lines ∧
    (ns.foldl Journald.add_bytes j).bytes = (j.bytes + ns.sum) % U64MOD := by
  induction ns generalizing j with
  | nil => exact ⟨rfl, by simpa using (Nat.mod_eq_of_lt hj).symm⟩
  | cons n rest ih =>
      have h1 : (Journald.add_bytes j n).bytes < U64MOD :=
        Nat.mod_lt _ (by decide)
      obtain ⟨hl, hb⟩ := ih (Journald.add_bytes j n) h1
      refine ⟨by simpa [Journald.add_bytes] using hl, ?_⟩
      simp only [List.foldl_cons] at hb ⊢
      rw [hb]
      simp [Journald.add_bytes, u64add, Nat.mod_add_mod, List.sum_cons, Nat.add_assoc]

/-- Folding `Http.add_request_size` over a list of sizes accumulates the
wrapped sum into `request_size` and leaves the other three counters alone. -/
theorem foldl_add_request_size_spec (ns : List Nat) (h : Http)
    (hh : h.request_size < U64MOD) :
    (ns.foldl Http.add_request_size h).request_size = (h.request_size + ns.sum) % U64MOD ∧
    (ns.foldl Http.add_request_size h).requests = h.requests ∧
    (ns.foldl Http.add_request_size h).limit_hits = h.limit_hits ∧
    (ns.foldl Http.add_request_size h).retries = h.retries := by
  induction ns generalizing h with
  | nil =>
      exact ⟨by simpa using (Nat.mod_eq_of_lt hh).symm, rfl, rfl, rfl⟩
  | cons n rest ih =>
      have h1 : (Http.add_request_size h n).request_size < U64MOD :=
        Nat.mod_lt _ (by decide)
      obtain ⟨hs, hr, hl, ht⟩ := ih (Http.add_request_size h n) h1
      refine ⟨?_, by simpa [Http.add_request_size] using hr,
        by simpa [Http.add_request_size] using hl,
        by simpa [Http.add_request_size] using ht⟩
      simp only [List.foldl_cons] at hs ⊢
      rw [hs]
      simp [Http.add_request_size, u64add, Nat.mod_add_mod, List.sum_cons, Nat.add_assoc]

/-! ## Claims -/

/-- C9: `Metrics::reset` sets every `Http`, `K8s` and `Journald` counter to
0 and stores the current timestamp into `last_flush`, but leaves the
filesystem counters (`FS_EVENTS`, `FS_LINES`, `FS_BYTES`,
`FS_PARTIAL_READS`) and the `Memory` sampler state unchanged, because
`Fs::reset` and `Memory::reset` have empty bodies. -/
theorem reset_frame_effect (m : Metrics) (t : Int) :
    (Metrics.reset t m).http = Http.new ∧
    (Metrics.reset t m).k8s = K8s.new ∧
    (Metrics.reset t m).journald = Journald.new ∧
    (Metrics.reset t m).last_flush = t ∧
    (Metrics.reset t m).fs = m.fs ∧
    (Metrics.reset t m).memory = m.memory :=
  ⟨rfl, rfl, rfl, rfl, rfl, rfl⟩

/-- The registry state of the C1 scenario: fresh registry (created at
timestamp 0, healthy malloc-stats facility) after `Fs::add_bytes(100)`. -/
def c1_state : Metrics :=
  { Metrics.new 0 exampleMem with
    fs := Fs.add_bytes (Metrics.new 0 exampleMem).fs 100 }

/-- C1 counterexample: after `add_bytes(100)`, the flush tick
(`Metrics::print` then `Metrics::reset`) panics inside `print` (label
cardinality), and even running `Metrics::reset` directly leaves
`FS_BYTES` at 100 — a reset-type counter that reads 100, not 0, right
after the reset, because `Fs::reset` is a no-op. -/
theorem snapshot_reset_leaves_fs_bytes :
    Metrics.snapshot_and_reset 1 c1_state = .error () ∧
    (Metrics.reset 1 c1_state).fs.FS_BYTES = 100 ∧
    (Metrics.reset 1 c1_state).fs.FS_BYTES ≠ 0 :=
  ⟨rfl, rfl, by decide⟩

/-- C1 (amended): `Metrics::reset` zeroes every `Http`, `K8s` and
`Journald` counter — an immediately following read returns 0 for each of
them — and leaves the memory sampler untouched, but the filesystem
counters are left completely unchanged (`Fs::reset` is a no-op). -/
theorem reset_zeroes_http_k8s_journald_only (m : Metrics) (t : Int) :
    Http.read_requests (Metrics.reset t m).http = 0 ∧
    Http.read_limit_hits (Metrics.reset t m).http = 0 ∧
    Http.read_request_size (Metrics.reset t m).http = 0 ∧
    Http.read_retries (Metrics.reset t m).http = 0 ∧
    K8s.read_lines (Metrics.reset t m).k8s = 0 ∧
    K8s.read_polls (Metrics.reset t m).k8s = 0 ∧
    K8s.read_creates (Metrics.reset t m).k8s = 0 ∧
    K8s.read_deletes (Metrics.reset t m).k8s = 0 ∧
    K8s.read_events (Metrics.reset t m).k8s = 0 ∧
    K8s.read_notifies (Metrics.reset t m).k8s = 0 ∧
    Journald.read_lines (Metrics.reset t m).journald = 0 ∧
    Journald.read_bytes (Metrics.reset t m).journald = 0 ∧
    (Metrics.reset t m).fs = m.fs ∧
    (Metrics.reset t m).memory = m.memory :=
  ⟨rfl, rfl, rfl, rfl, rfl, rfl, rfl, rfl, rfl, rfl, rfl, rfl, rfl, rfl⟩

/-- C5 counterexample: one call to `Journald::add_bytes(5)` on a fresh
`Journald` group leaves the line count at 0 — it has not increased by 1 as
the claim requires. -/
theorem journald_add_bytes_no_line_count :
    Journald.read_lines (Journald.add_bytes Journald.new 5) = 0 ∧
    Journald.read_lines (Journald.add_bytes Journald.new 5) ≠ 1 :=
  ⟨rfl, by decide⟩

/-- C5 (amended): `Journald::add_bytes(n)` adds `n` (wrapping modulo 2^64)
to the bytes total and leaves the line count unchanged; after any sequence
of `add_bytes` calls from a fresh group, `lines` still reads 0 and `bytes`
reads the wrapped sum.  Lines are counted only by `increment_lines`. -/
theorem journald_add_bytes_frame (j : Journald) (num : Nat) (ns : List Nat) :
    (Journald.add_bytes j num).bytes = u64add j.bytes num ∧
    (Journald.add_bytes j num).lines = j.lines ∧
    Journald.read_lines (ns.foldl Journald.add_bytes Journald.new) = 0 ∧
    Journald.read_bytes (ns.foldl Journald.add_bytes Journald.new) = ns.sum % U64MOD := by
  obtain ⟨hl, hb⟩ := foldl_add_bytes_spec ns Journald.new (by decide)
  exact ⟨rfl, rfl, hl, by simpa [Journald.read_bytes, Journald.new] using hb⟩

/-- The `Http` group after `add_request_size(10)`, `add_request_size(20)`,
`add_request_size(30)` from fresh. -/
def h3 : Http :=
  Http.add_request_size (Http.add_request_size (Http.add_request_size Http.new 10) 20) 30

/-- C4 counterexample: after the three `add_request_size` calls of the
claim's scenario, the sum reads 60, but no exposed `Http` value records the
sample count 3 — all other counters read 0 (they are untouched by
`add_request_size`); there is no count component in the code's
`request_size` accumulator. -/
theorem add_request_size_no_count :
    Http.read_request_size h3 = 60 ∧
    Http.read_requests h3 = 0 ∧
    Http.read_limit_hits h3 = 0 ∧
    Http.read_retries h3 = 0 ∧
    Http.read_requests h3 ≠ 3 ∧
    Http.read_limit_hits h3 ≠ 3 ∧
    Http.read_retries h3 ≠ 3 ∧
    Http.read_request_size h3 ≠ 3 := by
  refine ⟨rfl, rfl, rfl, rfl, by decide, by decide, by decide, by decide⟩

/-- C4 (amended): `Http::add_request_size` accumulates only a sum (a single
`AtomicU64`), not a count+sum distribution: after any sequence of
`add_request_size` calls from fresh, `read_request_size` returns the
wrapped arithmetic total of the observed magnitudes while `requests`,
`limit_hits` and `retries` all still read 0; in particular no sample count
is recorded by these calls. -/
theorem add_request_size_sum_only (ns : List Nat) :
    Http.read_request_size (ns.foldl Http.add_request_size Http.new) = ns.sum % U64MOD ∧
    Http.read_requests (ns.foldl Http.add_request_size Http.new) = 0 ∧
    Http.read_limit_hits (ns.foldl Http.add_request_size Http.new) = 0 ∧
    Http.read_retries (ns.foldl Http.add_request_size Http.new) = 0 := by
  obtain ⟨hs, hr, hl, ht⟩ := foldl_add_request_size_spec ns Http.new (by decide)
  exact ⟨by simpa [Http.read_request_size, Http.new] using hs, hr, hl, ht⟩

/-- C2: the producer-facing labeled filesystem increments panic on every
call: `increment_creates`/`increment_deletes`/`increment_writes` each call
`FS_EVENTS.with_label_values` with a single label value, while `FS_EVENTS`
is registered with the three label names of `labels::FS_ALL` — an
`InconsistentCardinality` error that `with_label_values` unwraps.  Shown
here evaluated on the freshly registered globals. -/
theorem fs_labeled_increments_panic :
    Fs.increment_creates FsCounters.new = .error () ∧
    Fs.increment_deletes FsCounters.new = .error () ∧
    Fs.increment_writes FsCounters.new = .error () :=
  ⟨rfl, rfl, rfl⟩

/-- C3: on the fresh registry the "aggregate" read
`FS_EVENTS.with_label_values(labels::FS_ALL).get()` succeeds and returns
the single child keyed by the value tuple (create, write, delete) — which
reads 0 — while every per-label read
`FS_EVENTS.with_label_values(&[label]).get()` panics (one label value
against three registered label names), so the aggregate does not equal a
sum of per-label reads. -/
theorem fs_events_aggregate_not_label_sum :
    FsCounters.new.FS_EVENTS.with_label_values_get labels.FS_ALL = .ok 0 ∧
    FsCounters.new.FS_EVENTS.with_label_values_get [labels.CREATE] = .error () ∧
    FsCounters.new.FS_EVENTS.with_label_values_get [labels.WRITE] = .error () ∧
    FsCounters.new.FS_EVENTS.with_label_values_get [labels.DELETE] = .error () :=
  ⟨rfl, rfl, rfl, rfl⟩

/-- C7: `Metrics::print` never produces the structured record, for every
registry state: the `fs.events` field is read with three label values and
the `fs.creates` field with one, and these cannot both match the registered
label cardinality, so one of the first two field evaluations panics and
`print` aborts. -/
theorem print_always_panics (m : Metrics) : Metrics.print m = .error () := by
  unfold Metrics.print
  unfold IntCounterVec.with_label_values_get
  by_cases h3 : (labels.FS_ALL).length = m.fs.FS_EVENTS.label_names.length
  · have h1 : ¬ ((1 : Nat) = m.fs.FS_EVENTS.label_names.length) := by
      simp only [labels.FS_ALL, List.length] at h3
      omega
    simp [h3, h1]
  · simp [h3]

/-- C6: `Metrics::elapsed` reads 0 immediately after a reset at the same
timestamp; when the clock is at or past `last_flush` (the time of the last
reset, or of registry creation if none) it returns exactly the whole
seconds elapsed since `last_flush`; and between two flushes it is
monotonically non-decreasing as the clock advances. -/
theorem elapsed_since_flush_behavior (m : Metrics) (t t1 t2 : Int)
    (h0 : m.last_flush ≤ t1) (h12 : t1 ≤ t2)
    (hr : t2 - m.last_flush < (2 ^ 64 : Int)) :
    Metrics.elapsed t (Metrics.reset t m) = 0 ∧
    Metrics.elapsed t1 m = (t1 - m.last_flush).toNat ∧
    Metrics.elapsed t1 m ≤ Metrics.elapsed t2 m := by
  have h64 : (2 ^ 64 : Int) = 18446744073709551616 := by norm_num
  rw [h64] at hr
  have ha : (0 : Int) ≤ t1 - m.last_flush := by omega
  have hb : t1 - m.last_flush < (2 ^ 64 : Int) := by rw [h64]; omega
  have hc : (0 : Int) ≤ t2 - m.last_flush := by omega
  have hd : t2 - m.last_flush < (2 ^ 64 : Int) := by rw [h64]; omega
  have e1 : Metrics.elapsed t1 m = (t1 - m.last_flush).toNat := by
    unfold Metrics.elapsed i64_as_u64
    rw [Int.emod_eq_of_lt ha hb]
  have e2 : Metrics.elapsed t2 m = (t2 - m.last_flush).toNat := by
    unfold Metrics.elapsed i64_as_u64
    rw [Int.emod_eq_of_lt hc hd]
  refine ⟨?_, e1, ?_⟩
  · unfold Metrics.elapsed Metrics.reset i64_as_u64
    simp
  · rw [e1, e2]
    exact Int.toNat_le_toNat (by omega)

/-- Witness for C6: registry created at timestamp 0, reset at t = 5 reads
0; at t1 = 3 with no flush the elapsed time is 3 whole seconds; and it does
not decrease from t1 = 3 to t2 = 7. -/
theorem elapsed_since_flush_behavior_witness :
    Metrics.elapsed 5 (Metrics.reset 5 (Metrics.new 0 exampleMem)) = 0 ∧
    Metrics.elapsed 3 (Metrics.new 0 exampleMem) =
      ((3 : Int) - (Metrics.new 0 exampleMem).last_flush).toNat ∧
    Metrics.elapsed 3 (Metrics.new 0 exampleMem) ≤
      Metrics.elapsed 7 (Metrics.new 0 exampleMem) :=
  elapsed_since_flush_behavior (Metrics.new 0 exampleMem) 5 3 7
    (by norm_num [Metrics.new]) (by norm_num) (by norm_num [Metrics.new])

/-- C8: each of `read_active`, `read_allocated`, `read_resident` first
advances the sampling generation and then reads its statistic as an
unsigned 64-bit byte count (the returned facility state has the epoch
bumped by one and the value is reduced modulo 2^64); if the facility fails
to advance or to read, the call panics (`.error`) instead of returning a
sentinel such as `.ok 0`. -/
theorem memory_reads_advance_then_read (m : Memory) :
    (m.epoch_ok = true → m.active_ok = true →
      m.read_active = .ok (m.active % U64MOD, { m with epoch := u64add m.epoch 1 })) ∧
    (m.epoch_ok = true → m.allocated_ok = true →
      m.read_allocated = .ok (m.allocated % U64MOD, { m with epoch := u64add m.epoch 1 })) ∧
    (m.epoch_ok = true → m.resident_ok = true →
      m.read_resident = .ok (m.resident % U64MOD, { m with epoch := u64add m.epoch 1 })) ∧
    (m.epoch_ok = false →
      m.read_active = .error () ∧ m.read_allocated = .error () ∧
        m.read_resident = .error ()) ∧
    (m.active_ok = false → m.read_active = .error ()) ∧
    (m.allocated_ok = false → m.read_allocated = .error ()) ∧
    (m.resident_ok = false → m.read_resident = .error ()) := by
  refine ⟨?_, ?_, ?_, ?_, ?_, ?_, ?_⟩
  · intro h1 h2
    simp [Memory.read_active, Memory.advance_epoch, h1, h2]
  · intro h1 h2
    simp [Memory.read_allocated, Memory.advance_epoch, h1, h2]
  · intro h1 h2
    simp [Memory.read_resident, Memory.advance_epoch, h1, h2]
  · intro h1
    refine ⟨?_, ?_, ?_⟩ <;>
      simp [Memory.read_active, Memory.read_allocated, Memory.read_resident,
        Memory.advance_epoch, h1]
  · intro h2
    cases he : m.epoch_ok <;>
      simp [Memory.read_active, Memory.advance_epoch, he, h2]
  · intro h2
    cases he : m.epoch_ok <;>
      simp [Memory.read_allocated, Memory.advance_epoch, he, h2]
  · intro h2
    cases he : m.epoch_ok <;>
      simp [Memory.read_resident, Memory.advance_epoch, he, h2]

/-- Witness for C8: on the healthy concrete facility, `read_active`
advances the epoch and returns the active statistic. -/
theorem memory_reads_advance_then_read_witness :
    Memory.read_active exampleMem =
      .ok (exampleMem.active % U64MOD, { exampleMem with epoch := u64add exampleMem.epoch 1 }) :=
  (memory_reads_advance_then_read exampleMem).1 rfl rfl

/-- C10: when the current clock reading is strictly earlier than the
stored `last_flush` timestamp, `Metrics::elapsed` wraps: the `as u64` cast
of the negative difference yields `2^64 - (last_flush - now)` — a value
near 2^64 — rather than 0 or an error. -/
theorem elapsed_wraps_on_clock_regression (m : Metrics) (t : Int)
    (h : t < m.last_flush) (hr : m.last_flush - t < (2 ^ 64 : Int)) :
    Metrics.elapsed t m = ((2 ^ 64 : Int) - (m.last_flush - t)).toNat ∧
    Metrics.elapsed t m ≠ 0 := by
  have h64 : (2 ^ 64 : Int) = 18446744073709551616 := by norm_num
  have key : (t - m.last_flush) % (2 ^ 64 : Int) = 2 ^ 64 - (m.last_flush - t) := by
    have h1 : t - m.last_flush = (2 ^ 64 - (m.last_flush - t)) + 2 ^ 64 * (-1) := by ring
    rw [h1, Int.add_mul_emod_self_left]
    refine Int.emod_eq_of_lt ?_ ?_ <;> rw [h64] at hr ⊢ <;> omega
  have e : Metrics.elapsed t m = ((2 ^ 64 : Int) - (m.last_flush - t)).toNat := by
    unfold Metrics.elapsed i64_as_u64
    rw [key]
  refine ⟨e, ?_⟩
  rw [e]
  simp only [ne_eq, Int.toNat_eq_zero, not_le]
  rw [h64] at hr ⊢
  omega

/-- Witness for C10: registry whose `last_flush` is 10, clock reading 3:
elapsed wraps to `2^64 - 7` rather than 0. -/
theorem elapsed_wraps_on_clock_regression_witness :
    Metrics.elapsed 3 (Metrics.new 10 exampleMem) =
      ((2 ^ 64 : Int) - ((Metrics.new 10 exampleMem).last_flush - 3)).toNat ∧
    Metrics.elapsed 3 (Metrics.new 10 exampleMem) ≠ 0 :=
  elapsed_wraps_on_clock_regression (Metrics.new 10 exampleMem) 3
    (by norm_num [Metrics.new]) (by norm_num [Metrics.new])
